import Mathlib

/-!
Verification of the grid-assembly scraper (Stock-Web-Data).

Shallow embedding of the core of `Retrieval/RetriveData.py`,
`Retrieval/ScrollAndTools.py` and `Retrieval/AdRemoval.py`:

* `looks_like_date` — `Tools.looks_like_date` (regex `^\d{4}-\d{2}-\d{2}$`
  under Python `re.match`, where `$` also accepts one trailing newline);
* `chartStep` / `chartRun` / `get_chart` — the scan/scroll/diff loop of
  `Collect.get_chart` (bounded by `max_scroll_attempts = 50`);
* `collect_stock_info` control flow, the cell-cleaning pipeline, the
  outer join on `Date`, and the Employee-Count year merge;
* `drag_scrollbar`, the ad-removal steps, and
  `Collect.extract_employee_table_to_df`.

The browser is abstracted as an environment of streams: what each call to
`extract_grid_data` / `get_scrollbar_thumb_x` returns at each point of the
run, and whether each automation gesture raises.  Exceptions are modelled
with `Except`.  Line numbers refer to `Retrieval/RetriveData.py` unless
another file is named.
-/

namespace StockWeb

/-- Shape test behind `Tools.looks_like_date`: the character list is
exactly `DDDD-DD-DD` with decimal digits. -/
def dateShape : List Char → Bool
  | [a, b, c, d, e, f, g, h, i, j] =>
    a.isDigit && b.isDigit && c.isDigit && d.isDigit && e = '-' &&
    f.isDigit && g.isDigit && h = '-' && i.isDigit && j.isDigit
  | _ => false

/-- Model of `Tools.looks_like_date` (ScrollAndTools.py lines 21–22):
Python's `re.match` with a `$` anchor also accepts a single trailing
newline. -/
def looks_like_date (s : String) : Bool :=
  dateShape s.data || (s.data.getLast? = some '\n' && dateShape s.data.dropLast)

/-- One scan of the visible grid window: what `Tools.extract_grid_data`
returns (header texts, then the cell texts of each visible row). -/
structure Scan where
  headers : List String
  rows : List (List String)
deriving DecidableEq, Repr

/-- The browser behavior seen by one `Collect.get_chart` run: the thumb
position read before and after the drag of iteration `k`, the scan obtained
during iteration `k` (`scan 0` is the initial scan before the loop), and
whether the drag gesture of iteration `k` completes without raising. -/
structure Env where
  xBefore : Nat → Option Int
  xAfter : Nat → Option Int
  scan : Nat → Scan
  dragOk : Nat → Bool

/-- Accumulator state of the loop: `all_headers` and `all_data`. -/
structure St where
  hs : List String
  data : List (List String)
deriving DecidableEq, Repr

/-- Lines 348–357: extend each existing row (by index) with the cells of the
new scan at the new-column indices, or create a new row left-padded with
`hlen` empty strings.  Rows of `old` beyond the new scan's row count are
left untouched. -/
def mergeRows (old : List (List String)) (nd : List (List String))
    (idxs : List Nat) (hlen : Nat) : List (List String) :=
  (List.range (max old.length nd.length)).map fun i =>
    match nd.get? i with
    | none => (old.get? i).getD []
    | some row =>
      let rowData := idxs.map fun idx => row.getD idx ""
      match old.get? i with
      | some orow => orow ++ rowData
      | none => List.replicate hlen "" ++ rowData

/-- One iteration of the `while attempts < max_scroll_attempts` loop of
`Collect.get_chart` (lines 316–361).  `none` means the loop breaks at one of
the three data-driven exits (no scrollbar, no forward movement, no new
date-like columns); `some` is the updated accumulator. -/
def chartStep (env : Env) (k : Nat) (st : St) : Option St :=
  match env.xBefore k with
  | none => none
  | some xb =>
    let _scrolled := env.dragOk k
    match env.xAfter k with
    | none => none
    | some xa =>
      if xa ≤ xb then none
      else
        let s := env.scan (k + 1)
        let newCols := s.headers.filter fun h =>
          looks_like_date h && !(st.hs.contains h)
        if newCols.isEmpty then none
        else
          let newIdx := newCols.map fun h => s.headers.indexOf h
          some ⟨st.hs ++ newCols, mergeRows st.data s.rows newIdx st.hs.length⟩

/-- Run the loop with the given fuel, returning the final state and the
final value of the `attempts` counter (which starts at `k`). -/
def chartRun (env : Env) : Nat → Nat → St → St × Nat
  | 0, k, st => (st, k)
  | fuel + 1, k, st =>
    match chartStep env k st with
    | none => (st, k)
    | some st' => chartRun env fuel (k + 1) st'

/-- All accumulator states the run passes through (seed state first, then
the state after every executed loop iteration). -/
def chartStates (env : Env) : Nat → Nat → St → List St
  | 0, _, st => [st]
  | fuel + 1, k, st =>
    st ::
      match chartStep env k st with
      | none => []
      | some st' => chartStates env fuel (k + 1) st'

/-- The scroll-attempt bound `max_scroll_attempts` (line 312). -/
def max_scroll_attempts : Nat := 50

/-- Seed state: the scan taken before the loop (line 309). -/
def seedSt (env : Env) : St := ⟨(env.scan 0).headers, (env.scan 0).rows⟩

/-- Lines 364–368: pad a short row with empty strings and truncate a long
row so that it has exactly `n` entries. -/
def normalizeRow (r : List String) (n : Nat) : List String :=
  r.take n ++ List.replicate (n - r.length) ""

/-- Model of `Collect.get_chart` run against behavior `env`: the assembled
table it returns. -/
def get_chart (env : Env) : St :=
  let st := (chartRun env max_scroll_attempts 0 (seedSt env)).1
  ⟨st.hs, st.data.map fun r => normalizeRow r st.hs.length⟩

/-- The number of loop iterations `Collect.get_chart` executes against
behavior `env` (the final value of `attempts`). -/
def get_chartIters (env : Env) : Nat :=
  (chartRun env max_scroll_attempts 0 (seedSt env)).2

/-- The intermediate accumulator states of the run. -/
def get_chartStates (env : Env) : List St :=
  chartStates env max_scroll_attempts 0 (seedSt env)

/-- A benign behavior: the thumb moves but every scan shows the same
window. -/
def envA : Env :=
  { xBefore := fun _ => some 0
    xAfter := fun _ => some 1
    scan := fun _ => ⟨["Metric", "2023-01-01"], [["Revenue", "100"]]⟩
    dragOk := fun _ => true }

/-- A behavior whose second scan returns fewer rows than the first, so the
second accumulated row is never extended. -/
def envB : Env :=
  { xBefore := fun k => if k = 0 then some 0 else none
    xAfter := fun _ => some 10
    scan := fun k =>
      if k = 0 then ⟨["Metric"], [["m1"], ["m2"]]⟩
      else ⟨["2023-01-01"], [["v"]]⟩
    dragOk := fun _ => true }

/-- Numeric value of a list of decimal digit characters. -/
def digitsToNat (cs : List Char) : Nat :=
  cs.foldl (fun a c => 10 * a + (c.toNat - 48)) 0

/-- Calendar year derived from the `Date` column
(`pd.to_datetime(...).dt.year.fillna(0)`): the leading four digits of a
strict `YYYY-MM-DD` date, and `0` when the date does not parse. -/
def year_of_date (d : String) : Int :=
  if dateShape d.data then (digitsToNat (d.data.take 4) : Int) else 0

/-- Lines 183–197: the unified table is copied, a `Year` column is derived
from `Date`, **the first row is dropped** (`combined_df.iloc[1:]`), the
employee table is left-merged on `Year`, and the helper column removed.
Each surviving row `(date, payload)` becomes
`(date, payload, employees-for-its-year)`. -/
def merge_employees {α : Type} (t : List (String × α))
    (emp : List (Int × Int)) : List (String × α × Option Int) :=
  (t.drop 1).map fun p => (p.1, p.2, emp.lookup (year_of_date p.1))

/-- What each overlay-clearing sub-step's body does when run against the
page: either it completes, or an exception is raised inside it. -/
structure AdEnv where
  closeInner : Except String Unit
  removeInner : Except String Unit
  waitInner : Except String Unit

/-- Model of `Remove.close_ad_overlay` (AdRemoval.py lines 12–53): the
whole body sits inside `try/except Exception`, so whatever the inner
behavior, the method returns normally. -/
def close_ad_overlay (inner : Except String Unit) : Except String Unit :=
  match inner with
  | _ => Except.ok ()

/-- Model of `Remove.remove_ad_overlay` (AdRemoval.py lines 56–66): the
`execute_script` call has **no** exception handler, so the inner outcome
is propagated as-is. -/
def remove_ad_overlay (inner : Except String Unit) : Except String Unit :=
  inner

/-- Model of `Remove.wait_for_overlay_to_disappear` (AdRemoval.py lines
69–83): the wait sits inside `try/except`, so a timeout (or anything else)
is swallowed. -/
def wait_for_overlay_to_disappear (inner : Except String Unit) :
    Except String Unit :=
  match inner with
  | _ => Except.ok ()

/-- Model of `Tools.ensure_ads_removed` (ScrollAndTools.py lines 60–67):
the three sub-steps run in sequence with no handler of its own. -/
def ensure_ads_removed (e : AdEnv) : Except String Unit := do
  let _ ← close_ad_overlay e.closeInner
  let _ ← remove_ad_overlay e.removeInner
  let _ ← wait_for_overlay_to_disappear e.waitInner
  Except.ok ()

/-- Strip every `$`, `,` and `%` character (the chained `str.replace`
calls of line 215 and the regex `[\$,%,]` of line 248). -/
def stripSymbols (s : String) : String :=
  ⟨s.data.filter fun c => c ≠ '$' && c ≠ ',' && c ≠ '%'⟩

/-- Decimal-string parsing as performed by `pd.to_numeric` on a cell text:
an optional sign, an integer part and an optional single fractional part,
with at least one digit overall; anything else fails. -/
def parseDecimal (s : String) : Option ℚ :=
  let core : List Char → Option ℚ := fun cs =>
    let ip := cs.takeWhile Char.isDigit
    let rest := cs.drop ip.length
    match rest with
    | [] => if ip.isEmpty then none else some (digitsToNat ip : ℚ)
    | '.' :: fp =>
      if fp.all Char.isDigit && !(ip.isEmpty && fp.isEmpty) then
        some ((digitsToNat ip : ℚ) + (digitsToNat fp : ℚ) / (10 : ℚ) ^ fp.length)
      else none
    | _ => none
  match s.data with
  | '-' :: t => (core t).map (fun v => -v)
  | '+' :: t => core t
  | cs => core cs

/-- The net per-cell effect of the cleaning pipeline applied to every
ordinary panel's table: line 212 / line 243 replace a literal `"-"` cell by
`0`; otherwise the `$`/`,`/`%` characters are stripped (lines 215, 248) and
the cell is coerced to a number, a coercion failure becoming `NaN` and then
`0` (line 249, `pd.to_numeric(errors="coerce").fillna(0)`). -/
def cleanCell (s : String) : ℚ :=
  if s = "-" then 0
  else
    match parseDecimal (stripSymbols s) with
    | some q => q
    | none => 0

/-- Strip every `,` character (`.replace(',', '')`, line 282). -/
def stripCommas (s : String) : String :=
  ⟨s.data.filter fun c => c ≠ ','⟩

/-- Python `int(...)` on an already-stripped cell text: optional sign then
a non-empty run of digits; anything else raises `ValueError` (`none`). -/
def parsePyInt (s : String) : Option Int :=
  let digitsOk : List Char → Bool := fun cs => !cs.isEmpty && cs.all Char.isDigit
  match s.data with
  | '-' :: t => if digitsOk t then some (-(digitsToNat t : Int)) else none
  | '+' :: t => if digitsOk t then some (digitsToNat t : Int) else none
  | cs => if digitsOk cs then some (digitsToNat cs : Int) else none

/-- The `Employees` cell of one employee-table row (lines 282–287): commas
removed, the literal `N/A` mapped to `0`, anything else parsed with
`int(...)` (`none` = `ValueError`). -/
def employeeCellValue (s : String) : Option Int :=
  let e := stripCommas s
  if e = "N/A" then some 0 else parsePyInt e

/-- The body of the row loop of `extract_employee_table_to_df` (lines
267–291) with Python exception semantics: rows without exactly two cells
are skipped; a two-cell row parses its `Year` with `int(...)` and its
`Employees` cell with the `N/A`-aware parse, a `ValueError` aborting the
whole loop. -/
def empBody : List (List String) → Except String (List (Int × Int))
  | [] => Except.ok []
  | r :: rest =>
    if r.length = 2 then
      match parsePyInt (r.getD 0 "") with
      | none => Except.error "ValueError"
      | some y =>
        match employeeCellValue (r.getD 1 "") with
        | none => Except.error "ValueError"
        | some e => (empBody rest).map (fun l => (y, e) :: l)
    else empBody rest

/-- Model of `Collect.extract_employee_table_to_df`: the `try/except`
around the whole loop (lines 265–296) turns any exception into an empty
result, discarding every row parsed before the failure. -/
def extract_employee_table_to_df (rows : List (List String)) :
    List (Int × Int) :=
  match empBody rows with
  | Except.ok l => l
  | Except.error _ => []

/-- A transposed, prefixed panel table: its non-Date column names and, for
each date, the cell values of those columns (`none` = missing / `NaN`). -/
structure PTable where
  cols : List String
  rows : List (String × List (Option ℚ))

/-- Model of `pd.merge(combined_df, df_t, on="Date", how="outer")`
(line 230) for tables with unique dates: every left row keeps its values,
extended by the matching right row's values (or `NaN` padding when the
date is absent on the right); dates present only on the right are added
with `NaN` padding on the left. -/
def outer_join (a b : PTable) : PTable :=
  { cols := a.cols ++ b.cols
    rows :=
      a.rows.map (fun p =>
        (p.1, p.2 ++ ((b.rows.lookup p.1).getD (List.replicate b.cols.length none))))
      ++ (b.rows.filter (fun p => ((a.rows.lookup p.1)).isNone)).map
          (fun p => (p.1, List.replicate a.cols.length none ++ p.2)) }

/-- The final cleaning pass (line 249): every missing value becomes `0`. -/
def fill_zero (t : PTable) : List (String × List ℚ) :=
  t.rows.map fun p => (p.1, p.2.map fun o => o.getD 0)

/-- Model of `Tools.drag_scrollbar` (ScrollAndTools.py lines 45–52): the
click-hold-drag-release gesture runs inside `try/except`; the method
returns `True` when the gesture completes and `False` when any exception
occurs — it never raises. -/
def drag_scrollbar (gesture : Except String Unit) : Bool :=
  match gesture with
  | Except.ok _ => true
  | Except.error _ => false

/-- The configured chart tabs (lines 142–148). -/
def charts : List String :=
  ["Financials", "Balance Sheet", "Cash Flow Statement",
   "Key Financial Ratios", "Other Metrics"]

/-- What the page does for each panel during one collection run:
the behavior inside `Tools.click` / `Tools.quartely`, the outcome of
`Collect.get_chart` (which can raise, e.g. the `WebDriverWait` timeout at
line 305), and the employee-table rows. -/
structure CollectEnv where
  clickInner : String → Except String Unit
  quartInner : String → Except String Unit
  chartOutcome : String → Except String St
  empRows : List (List String)

/-- Model of `Tools.click` (ScrollAndTools.py lines 109–142): the whole
body sits in `try/except Exception`, so the method returns normally
whatever happens inside. -/
def tools_click (inner : Except String Unit) : Except String Unit :=
  match inner with
  | _ => Except.ok ()

/-- Model of `Tools.quartely` (ScrollAndTools.py lines 145–179): same
shape — everything inside is caught. -/
def tools_quartely (inner : Except String Unit) : Except String Unit :=
  match inner with
  | _ => Except.ok ()

/-- The `for chart_title in self.charts` loop of `collect_stock_info`
with Python exception semantics made explicit: the loop body has **no**
`try/except`, so an exception from any callee propagates and ends the
whole run.  The result is the list of panels whose extraction completed.
For "Other Metrics", the tab and nested sub-tab are clicked (exceptions
swallowed inside `click`) and the employee table is read
(`extract_employee_table_to_df` never raises).  For ordinary panels,
`click` and `quartely` swallow their exceptions but `get_chart` does not. -/
def collectPanels (env : CollectEnv) : List String → Except String (List String)
  | [] => Except.ok []
  | p :: rest =>
    if p = "Other Metrics" then
      match tools_click (env.clickInner p) with
      | Except.error e => Except.error e
      | Except.ok _ =>
        match tools_click (env.clickInner "Employee Count") with
        | Except.error e => Except.error e
        | Except.ok _ =>
          let _emp := extract_employee_table_to_df env.empRows
          match collectPanels env rest with
          | Except.error e => Except.error e
          | Except.ok l => Except.ok (p :: l)
    else
      match tools_click (env.clickInner p) with
      | Except.error e => Except.error e
      | Except.ok _ =>
        match tools_quartely (env.quartInner p) with
        | Except.error e => Except.error e
        | Except.ok _ =>
          match env.chartOutcome p with
          | Except.error e => Except.error e
          | Except.ok _t =>
            match collectPanels env rest with
            | Except.error e => Except.error e
            | Except.ok l => Except.ok (p :: l)

/-- One collection run over the configured panel sequence. -/
def collect_stock_info_flow (env : CollectEnv) : Except String (List String) :=
  collectPanels env charts

/-- A run where the jqxgrid wait times out on the very first panel. -/
def cenvTimeout : CollectEnv :=
  { clickInner := fun _ => Except.ok ()
    quartInner := fun _ => Except.ok ()
    chartOutcome := fun p =>
      if p = "Financials" then Except.error "TimeoutException"
      else Except.ok ⟨[], []⟩
    empRows := [] }

/-- The `attempts` counter after running with `fuel` iterations of budget,
starting from counter value `k`, is at most `k + fuel`. -/
theorem chartRun_counter_le (env : Env) :
    ∀ fuel k st, (chartRun env fuel k st).2 ≤ k + fuel := by
  intro fuel
  induction fuel with
  | zero => intro k st; simp [chartRun]
  | succ n ih =>
    intro k st
    unfold chartRun
    cases h : chartStep env k st with
    | none => simp
    | some st' =>
      calc (chartRun env n (k + 1) st').2 ≤ (k + 1) + n := ih (k + 1) st'
        _ = k + (n + 1) := by omega

/-- Headers added by one loop iteration: exactly the date-like headers of
the new scan that are not already accumulated. -/
theorem chartStep_hs (env : Env) (k : Nat) (st st' : St)
    (h : chartStep env k st = some st') :
    st'.hs = st.hs ++ (env.scan (k + 1)).headers.filter
      (fun x => looks_like_date x && !(st.hs.contains x)) := by
  cases hxb : env.xBefore k with
  | none => simp [chartStep, hxb] at h
  | some xb =>
    cases hxa : env.xAfter k with
    | none => simp [chartStep, hxb, hxa] at h
    | some xa =>
      simp only [chartStep, hxb, hxa] at h
      by_cases hle : xa ≤ xb
      · rw [if_pos hle] at h; exact absurd h (by simp)
      · rw [if_neg hle] at h
        by_cases hempty :
            ((env.scan (k + 1)).headers.filter
              (fun x => looks_like_date x && !(st.hs.contains x))).isEmpty
        · rw [if_pos hempty] at h; exact absurd h (by simp)
        · rw [if_neg hempty] at h
          injection h with h2
          rw [← h2]

/-- If every scan has duplicate-free headers, each loop iteration preserves
duplicate-freeness of the accumulated header list. -/
theorem chartStep_nodup (env : Env) (k : Nat) (st st' : St)
    (hscan : ((env.scan (k + 1)).headers).Nodup)
    (hst : st.hs.Nodup) (h : chartStep env k st = some st') :
    st'.hs.Nodup := by
  rw [chartStep_hs env k st st' h]
  refine List.Nodup.append hst (hscan.filter _) ?_
  intro a ha hafil
  have := List.of_mem_filter hafil
  simp only [Bool.and_eq_true, Bool.not_eq_true'] at this
  have hcon : st.hs.contains a = false := this.2
  have : a ∉ st.hs := by simpa using hcon
  exact this ha

/-- Running the loop preserves duplicate-freeness of the header list. -/
theorem chartRun_nodup (env : Env)
    (hscan : ∀ k, ((env.scan k).headers).Nodup) :
    ∀ fuel k st, st.hs.Nodup → ((chartRun env fuel k st).1).hs.Nodup := by
  intro fuel
  induction fuel with
  | zero => intro k st hst; simpa [chartRun] using hst
  | succ n ih =>
    intro k st hst
    unfold chartRun
    cases h : chartStep env k st with
    | none => simpa using hst
    | some st' =>
      exact ih (k + 1) st' (chartStep_nodup env k st st' (hscan (k + 1)) hst h)

/-- Every row of the returned table is the normalization of a row of the
final accumulator state. -/
theorem get_chart_data_eq (env : Env) :
    (get_chart env).data =
      ((chartRun env max_scroll_attempts 0 (seedSt env)).1).data.map
        (fun r =>
          normalizeRow r
            ((chartRun env max_scroll_attempts 0 (seedSt env)).1).hs.length) :=
  rfl

/-- A normalized row has exactly the requested length. -/
theorem normalizeRow_length (r : List String) (n : Nat) :
    (normalizeRow r n).length = n := by
  simp only [normalizeRow, List.length_append, List.length_take,
    List.length_replicate]
  omega

/-- C1: for every scanner/driver behavior, the scroll loop of
`Collect.get_chart` executes at most `max_scroll_attempts = 50` iterations;
the bound comes from the `attempts` counter alone, independently of the
data-driven exits. -/
theorem get_chart_iterations_bounded (env : Env) :
    get_chartIters env ≤ max_scroll_attempts ∧ max_scroll_attempts = 50 := by
  constructor
  · have h := chartRun_counter_le env max_scroll_attempts 0 (seedSt env)
    simpa [get_chartIters] using h
  · rfl

/-- C2: if every scan returns duplicate-free headers (the GridSnapshot
invariant), the accumulated header list of `Collect.get_chart` never
contains the same string twice. -/
theorem get_chart_headers_nodup (env : Env)
    (hscan : ∀ k, ((env.scan k).headers).Nodup) :
    ((get_chart env).hs).Nodup := by
  have h := chartRun_nodup env hscan max_scroll_attempts 0 (seedSt env)
    (by simpa [seedSt] using hscan 0)
  simpa [get_chart] using h

/-- Witness for C2 at the concrete behavior `envA`. -/
theorem get_chart_headers_nodup_witness :
    (∀ k, ((envA.scan k).headers).Nodup) ∧ ((get_chart envA).hs).Nodup :=
  ⟨fun k => by
      show (["Metric", "2023-01-01"] : List String).Nodup
      decide,
    get_chart_headers_nodup envA (fun k => by
      show (["Metric", "2023-01-01"] : List String).Nodup
      decide)⟩

/-- C3 counterexample: against `envB`, the accumulator state after the
first assembly step has a row (`["m2"]`, never extended because the second
scan had only one row) whose length differs from the header count; the
row-width invariant does not hold after every assembly step. -/
theorem rowWidth_mid_loop_violation :
    (get_chartStates envB).get? 1 =
      some ⟨["Metric", "2023-01-01"], [["m1", "v"], ["m2"]]⟩ ∧
    ¬ (∀ st ∈ get_chartStates envB, ∀ r ∈ st.data,
        r.length = st.hs.length) := by
  constructor
  · rfl
  · decide

/-- C3 amended: in the table `Collect.get_chart` returns (after the final
pad/truncate normalization), every row's length equals the header count. -/
theorem get_chart_returned_rows_width (env : Env) (r : List String)
    (hr : r ∈ (get_chart env).data) :
    r.length = (get_chart env).hs.length := by
  rw [get_chart_data_eq] at hr
  obtain ⟨s, _hs, rfl⟩ := List.mem_map.mp hr
  have : (get_chart env).hs =
      ((chartRun env max_scroll_attempts 0 (seedSt env)).1).hs := rfl
  rw [this]
  exact normalizeRow_length _ _

/-- Witness for the amended C3 at the concrete behavior `envA`. -/
theorem get_chart_returned_rows_width_witness :
    ["Revenue", "100"] ∈ (get_chart envA).data ∧
    ([("Revenue" : String), "100"]).length = (get_chart envA).hs.length :=
  ⟨by decide, get_chart_returned_rows_width envA _ (by decide)⟩

/-- C4 counterexample: a unified table whose rows are exactly the two dates
`2021-03-01` and `2021-09-01`, with `Employees = 500` for year `2021`.
The merge drops the first row, so `2021-03-01` is absent from the result —
not every date row of the year survives with the yearly figure. -/
theorem employee_merge_drops_first_row :
    merge_employees [("2021-03-01", "r1"), ("2021-09-01", "r2")]
        [((2021 : Int), (500 : Int))] =
      [("2021-09-01", "r2", some 500)] ∧
    "2021-03-01" ∉
      (merge_employees [("2021-03-01", "r1"), ("2021-09-01", "r2")]
        [((2021 : Int), (500 : Int))]).map Prod.fst := by
  constructor
  · decide
  · decide

/-- C4 amended: every date row of year 2021 that survives the dropped
first row (`iloc[1:]`) is present after the merge and carries the yearly
`Employees` figure; in particular both `2021-03-01` and `2021-09-01` do,
provided neither is the unified table's first row. -/
theorem employee_merge_duplicates_year {α : Type} (t : List (String × α))
    (emp : List (Int × Int)) (v1 v2 : α)
    (h1 : ("2021-03-01", v1) ∈ t.drop 1)
    (h2 : ("2021-09-01", v2) ∈ t.drop 1)
    (hemp : emp.lookup (2021 : Int) = some 500) :
    ("2021-03-01", v1, some (500 : Int)) ∈ merge_employees t emp ∧
    ("2021-09-01", v2, some (500 : Int)) ∈ merge_employees t emp := by
  have hy1 : year_of_date "2021-03-01" = 2021 := by decide
  have hy2 : year_of_date "2021-09-01" = 2021 := by decide
  constructor
  · exact List.mem_map.mpr ⟨("2021-03-01", v1), h1, by simp [hy1, hemp]⟩
  · exact List.mem_map.mpr ⟨("2021-09-01", v2), h2, by simp [hy2, hemp]⟩

/-- Witness for the amended C4 at a concrete three-row unified table. -/
theorem employee_merge_duplicates_year_witness :
    (("2021-03-01", "r1") ∈
        ([("hdr", "h0"), ("2021-03-01", "r1"), ("2021-09-01", "r2")]).drop 1) ∧
    (("2021-09-01", "r2") ∈
        ([("hdr", "h0"), ("2021-03-01", "r1"), ("2021-09-01", "r2")]).drop 1) ∧
    ([((2021 : Int), (500 : Int))].lookup (2021 : Int) = some 500) ∧
    ("2021-03-01", "r1", some (500 : Int)) ∈
      merge_employees [("hdr", "h0"), ("2021-03-01", "r1"), ("2021-09-01", "r2")]
        [((2021 : Int), (500 : Int))] ∧
    ("2021-09-01", "r2", some (500 : Int)) ∈
      merge_employees [("hdr", "h0"), ("2021-03-01", "r1"), ("2021-09-01", "r2")]
        [((2021 : Int), (500 : Int))] := by
  refine ⟨by decide, by decide, by decide, ?_⟩
  exact employee_merge_duplicates_year
    [("hdr", "h0"), ("2021-03-01", "r1"), ("2021-09-01", "r2")]
    [((2021 : Int), (500 : Int))] "r1" "r2" (by decide) (by decide) (by decide)

/-- C6 counterexample: when the aggressive-removal script raises,
`remove_ad_overlay` propagates the exception and `ensure_ads_removed`
raises to its caller — not every sub-step is caught. -/
theorem remove_ad_overlay_propagates :
    remove_ad_overlay (Except.error "js") = Except.error "js" ∧
    ensure_ads_removed ⟨Except.ok (), Except.error "js", Except.ok ()⟩ =
      Except.error "js" := by
  constructor
  · rfl
  · rfl

/-- C6 amended: `close_ad_overlay` and `wait_for_overlay_to_disappear`
swallow every exception, but `remove_ad_overlay` has no handler:
`ensure_ads_removed` raises exactly when the removal script raises. -/
theorem ensure_ads_removed_propagation (e : AdEnv) :
    close_ad_overlay e.closeInner = Except.ok () ∧
    wait_for_overlay_to_disappear e.waitInner = Except.ok () ∧
    ensure_ads_removed e = remove_ad_overlay e.removeInner := by
  refine ⟨rfl, rfl, ?_⟩
  cases h : e.removeInner with
  | ok u => cases u; simp only [ensure_ads_removed, close_ad_overlay,
      remove_ad_overlay, wait_for_overlay_to_disappear, h]; rfl
  | error s => simp only [ensure_ads_removed, close_ad_overlay,
      remove_ad_overlay, wait_for_overlay_to_disappear, h]; rfl

/-- C7: the cleaning pass maps `"$1,234.56"` to `1234.56`, `"12%"` to `12`
and the literal `"-"` to `0`, and an `"N/A"` employee-count cell parses
to `0`. -/
theorem numeric_cleaning_examples :
    cleanCell "$1,234.56" = (1234.56 : ℚ) ∧
    cleanCell "12%" = 12 ∧
    cleanCell "-" = 0 ∧
    employeeCellValue "N/A" = some 0 := by
  refine ⟨?_, rfl, rfl, rfl⟩
  rw [show cleanCell "$1,234.56" = (1234 : ℚ) + (56 : ℚ) / (10 : ℚ) ^ 2
    from rfl]
  norm_num

/-- An unparseable two-cell row anywhere in the table makes the loop body
raise, regardless of what precedes or follows it. -/
theorem empBody_error_of_bad_row (y e : String) (hy : parsePyInt y = none) :
    ∀ pre post, ∃ s, empBody (pre ++ [y, e] :: post) = Except.error s := by
  intro pre
  induction pre with
  | nil =>
    intro post
    refine ⟨"ValueError", ?_⟩
    rw [List.nil_append]
    show (if ([y, e] : List String).length = 2 then _ else _) = _
    rw [if_pos (show ([y, e] : List String).length = 2 from rfl),
      show ([y, e] : List String).getD 0 "" = y from rfl, hy]
  | cons r rest ih =>
    intro post
    obtain ⟨s, hs⟩ := ih post
    by_cases hr : r.length = 2
    · cases hpy : parsePyInt (r.getD 0 "") with
      | none =>
        refine ⟨"ValueError", ?_⟩
        rw [List.cons_append]
        show (if r.length = 2 then _ else _) = _
        rw [if_pos hr, hpy]
      | some yv =>
        cases hpe : employeeCellValue (r.getD 1 "") with
        | none =>
          refine ⟨"ValueError", ?_⟩
          rw [List.cons_append]
          show (if r.length = 2 then _ else _) = _
          rw [if_pos hr, hpy, hpe]
        | some ev =>
          refine ⟨s, ?_⟩
          rw [List.cons_append]
          show (if r.length = 2 then _ else _) = _
          rw [if_pos hr, hpy, hpe, hs]
          rfl
    · refine ⟨s, ?_⟩
      rw [List.cons_append]
      show (if r.length = 2 then _ else _) = _
      rw [if_neg hr]
      exact hs

/-- C10: `extract_employee_table_to_df` never raises — rows without exactly
two cells are skipped, a parse failure anywhere yields the empty result
(discarding rows already parsed), and otherwise the parsed rows are
returned. -/
theorem extract_employee_never_raises :
    (∀ r rest, r.length ≠ 2 → empBody (r :: rest) = empBody rest) ∧
    (∀ pre y e post, parsePyInt y = none →
      extract_employee_table_to_df (pre ++ [y, e] :: post) = []) ∧
    (∀ rows, extract_employee_table_to_df rows = [] ∨
      empBody rows = Except.ok (extract_employee_table_to_df rows)) := by
  refine ⟨?_, ?_, ?_⟩
  · intro r rest hr
    simp only [empBody, hr, if_false]
  · intro pre y e post hy
    obtain ⟨s, hs⟩ := empBody_error_of_bad_row y e hy pre post
    simp only [extract_employee_table_to_df, hs]
  · intro rows
    cases h : empBody rows with
    | ok l => right; simp only [extract_employee_table_to_df, h]
    | error s => left; simp only [extract_employee_table_to_df, h]

/-- Witness for C10: a one-cell row is skipped; a table whose second row
has an unparseable year yields the empty result even though its first row
parsed. -/
theorem extract_employee_never_raises_witness :
    ((["only"] : List String).length ≠ 2 ∧
      empBody [["only"]] = empBody []) ∧
    (parsePyInt "abc" = none ∧
      extract_employee_table_to_df [["2020", "100"], ["abc", "5"]] = []) := by
  refine ⟨⟨by decide, ?_⟩, by decide, ?_⟩
  · exact extract_employee_never_raises.1 ["only"] [] (by decide)
  · exact extract_employee_never_raises.2.1 [["2020", "100"]] "abc" "5" []
      (by decide)

/-- Key not at the head of an association list: lookup skips the head. -/
theorem lookup_cons_ne {β : Type} (a k : String) (h : a ≠ k) (b : β)
    (l : List (String × β)) : ((k, b) :: l).lookup a = l.lookup a := by
  simp [List.lookup, beq_eq_false_iff_ne.mpr h]

/-- C8: joining panel A with dates `d1, d2` and panel B with dates
`d2, d3` (all distinct) gives exactly the dates `{d1, d2, d3}`; the row
for `d1` carries panel B's columns as missing values (`0` after the final
fill), and the row for `d2` carries the values of both panels. -/
theorem outer_join_completeness (acols bcols : List String)
    (d1 d2 d3 : String) (v1 v2 w2 w3 : List (Option ℚ))
    (h12 : d1 ≠ d2) (h13 : d1 ≠ d3) (h23 : d2 ≠ d3) :
    (∀ d, d ∈ (outer_join ⟨acols, [(d1, v1), (d2, v2)]⟩
          ⟨bcols, [(d2, w2), (d3, w3)]⟩).rows.map Prod.fst ↔
        (d = d1 ∨ d = d2 ∨ d = d3)) ∧
    (outer_join ⟨acols, [(d1, v1), (d2, v2)]⟩
        ⟨bcols, [(d2, w2), (d3, w3)]⟩).rows.lookup d1 =
      some (v1 ++ List.replicate bcols.length none) ∧
    (outer_join ⟨acols, [(d1, v1), (d2, v2)]⟩
        ⟨bcols, [(d2, w2), (d3, w3)]⟩).rows.lookup d2 = some (v2 ++ w2) ∧
    (fill_zero (outer_join ⟨acols, [(d1, v1), (d2, v2)]⟩
        ⟨bcols, [(d2, w2), (d3, w3)]⟩)).lookup d1 =
      some ((v1.map fun o => o.getD 0) ++
        List.replicate bcols.length (0 : ℚ)) := by
  have hbl1 : ([(d2, w2), (d3, w3)] :
      List (String × List (Option ℚ))).lookup d1 = none := by
    rw [lookup_cons_ne d1 d2 h12, lookup_cons_ne d1 d3 h13]
    rfl
  have hbl2 : ([(d2, w2), (d3, w3)] :
      List (String × List (Option ℚ))).lookup d2 = some w2 := by
    simp [List.lookup]
  have hal2 : ([(d1, v1), (d2, v2)] :
      List (String × List (Option ℚ))).lookup d2 = some v2 := by
    rw [lookup_cons_ne d2 d1 (Ne.symm h12)]
    simp [List.lookup]
  have hal3 : ([(d1, v1), (d2, v2)] :
      List (String × List (Option ℚ))).lookup d3 = none := by
    rw [lookup_cons_ne d3 d1 (Ne.symm h13), lookup_cons_ne d3 d2 (Ne.symm h23)]
    rfl
  have hrows : (outer_join ⟨acols, [(d1, v1), (d2, v2)]⟩
      ⟨bcols, [(d2, w2), (d3, w3)]⟩).rows =
      [(d1, v1 ++ List.replicate bcols.length none),
       (d2, v2 ++ w2),
       (d3, List.replicate acols.length none ++ w3)] := by
    simp [outer_join, hbl1, hbl2, hal2, hal3, List.filter]
  refine ⟨?_, ?_, ?_, ?_⟩
  · intro d
    rw [hrows]
    simp
  · rw [hrows, List.lookup]
    simp
  · rw [hrows, lookup_cons_ne d2 d1 (Ne.symm h12)]
    simp [List.lookup]
  · have hfz : fill_zero (outer_join ⟨acols, [(d1, v1), (d2, v2)]⟩
        ⟨bcols, [(d2, w2), (d3, w3)]⟩) =
        ([(d1, v1 ++ List.replicate bcols.length none),
          (d2, v2 ++ w2),
          (d3, List.replicate acols.length none ++ w3)]).map
          (fun p => (p.1, p.2.map fun o => o.getD 0)) := by
      unfold fill_zero
      rw [hrows]
    rw [hfz]
    simp [List.lookup, List.map_append, List.map_replicate]

/-- Witness for C8 at concrete one-column panels and three dates. -/
theorem outer_join_completeness_witness :
    ("2023-01-01" : String) ≠ "2023-04-01" ∧
    ("2023-01-01" : String) ≠ "2023-07-01" ∧
    ("2023-04-01" : String) ≠ "2023-07-01" ∧
    ((outer_join ⟨["a"], [("2023-01-01", [some 1]), ("2023-04-01", [some 2])]⟩
        ⟨["b"], [("2023-04-01", [some 3]), ("2023-07-01", [some 4])]⟩).rows.lookup
      "2023-01-01" = some [some 1, none]) ∧
    ((outer_join ⟨["a"], [("2023-01-01", [some 1]), ("2023-04-01", [some 2])]⟩
        ⟨["b"], [("2023-04-01", [some 3]), ("2023-07-01", [some 4])]⟩).rows.lookup
      "2023-04-01" = some [some 2, some 3]) := by
  have h := outer_join_completeness ["a"] ["b"]
    "2023-01-01" "2023-04-01" "2023-07-01"
    [some 1] [some 2] [some 3] [some 4]
    (by decide) (by decide) (by decide)
  exact ⟨by decide, by decide, by decide, h.2.1, h.2.2.1⟩

/-- One loop iteration does not depend on what the drag returned. -/
theorem chartStep_dragOk (env : Env) (d : Nat → Bool) (k : Nat) (st : St) :
    chartStep { env with dragOk := d } k st = chartStep env k st := rfl

/-- The whole run does not depend on what the drags returned. -/
theorem chartRun_dragOk (env : Env) (d : Nat → Bool) :
    ∀ fuel k st, chartRun { env with dragOk := d } fuel k st =
      chartRun env fuel k st := by
  intro fuel
  induction fuel with
  | zero => intro k st; rfl
  | succ n ih =>
    intro k st
    unfold chartRun
    rw [chartStep_dragOk]
    cases chartStep env k st with
    | none => rfl
    | some st' => exact ih (k + 1) st'

/-- C9: `drag_scrollbar` maps a completed gesture to `True` and any
exception to `False` without raising, and the scroll loop's outcome (the
assembled table and the iteration count) is the same whatever boolean the
drags return — termination is decided only by the thumb positions and
scans. -/
theorem drag_scrollbar_result_unused :
    drag_scrollbar (Except.ok ()) = true ∧
    (∀ e, drag_scrollbar (Except.error e) = false) ∧
    (∀ (env : Env) (d : Nat → Bool),
      get_chart { env with dragOk := d } = get_chart env ∧
      get_chartIters { env with dragOk := d } = get_chartIters env) := by
  refine ⟨rfl, fun e => rfl, fun env d => ⟨?_, ?_⟩⟩
  · show (let st := (chartRun { env with dragOk := d }
        max_scroll_attempts 0 (seedSt { env with dragOk := d })).1
      St.mk st.hs (st.data.map fun r => normalizeRow r st.hs.length)) = _
    rw [show seedSt { env with dragOk := d } = seedSt env from rfl,
      chartRun_dragOk env d]
    rfl
  · show (chartRun { env with dragOk := d }
        max_scroll_attempts 0 (seedSt { env with dragOk := d })).2 = _
    rw [show seedSt { env with dragOk := d } = seedSt env from rfl,
      chartRun_dragOk env d]
    rfl

/-- If `get_chart` succeeds on every ordinary panel of the list, every
panel completes. -/
theorem collectPanels_ok (env : CollectEnv) :
    ∀ l, (∀ p, p ∈ l → p ≠ "Other Metrics" →
        ∃ t, env.chartOutcome p = Except.ok t) →
      collectPanels env l = Except.ok l := by
  intro l
  induction l with
  | nil => intro _; rfl
  | cons p rest ih =>
    intro hp
    have hrest := ih fun q hq => hp q (List.mem_cons_of_mem p hq)
    by_cases hpo : p = "Other Metrics"
    · simp only [collectPanels, if_pos hpo, tools_click, hrest]
    · obtain ⟨t, ht⟩ := hp p (List.mem_cons_self p rest) hpo
      simp only [collectPanels, if_neg hpo, tools_click, tools_quartely,
        ht, hrest]

/-- If `get_chart` raises on some ordinary panel and succeeded on every
ordinary panel before it, the run ends with that exception. -/
theorem collectPanels_error (env : CollectEnv) :
    ∀ l₁ p l₂ e, (∀ q, q ∈ l₁ → q ≠ "Other Metrics" →
        ∃ t, env.chartOutcome q = Except.ok t) →
      env.chartOutcome p = Except.error e → p ≠ "Other Metrics" →
      collectPanels env (l₁ ++ p :: l₂) = Except.error e := by
  intro l₁
  induction l₁ with
  | nil =>
    intro p l₂ e _ hp hpo
    simp only [List.nil_append, collectPanels, if_neg hpo, tools_click,
      tools_quartely, hp]
  | cons q l₁ ih =>
    intro p l₂ e hq hp hpo
    have hrest := ih p l₂ e (fun r hr => hq r (List.mem_cons_of_mem q hr))
      hp hpo
    by_cases hqo : q = "Other Metrics"
    · simp only [List.cons_append, collectPanels, if_pos hqo, tools_click,
        List.append_eq, hrest]
    · obtain ⟨t, ht⟩ := hq q (List.mem_cons_self q l₁) hqo
      simp only [List.cons_append, collectPanels, if_neg hqo, tools_click,
        tools_quartely, ht, List.append_eq, hrest]

/-- C5 counterexample: the timeout raised by `get_chart` on the
"Financials" panel is not caught at the panel boundary — the whole
collection run aborts with the exception, and no later panel is
processed. -/
theorem panel_exception_aborts_collection :
    collect_stock_info_flow cenvTimeout = Except.error "TimeoutException" := by
  rfl

/-- C5 amended: exceptions inside `Tools.click` and `Tools.quartely` are
swallowed inside those helpers (and `extract_employee_table_to_df` never
raises), so such errors never abort the run; but `collect_stock_info` has
no handler of its own, so an exception raised by `get_chart` on an
ordinary panel propagates and aborts the whole entity's run — it is not
recovered at the panel boundary. -/
theorem collect_panel_error_propagation (env : CollectEnv) :
    (∀ inner, tools_click inner = Except.ok ()) ∧
    (∀ inner, tools_quartely inner = Except.ok ()) ∧
    ((∀ p, p ∈ charts → p ≠ "Other Metrics" →
        ∃ t, env.chartOutcome p = Except.ok t) →
      collect_stock_info_flow env = Except.ok charts) ∧
    (∀ l₁ p l₂ e, charts = l₁ ++ p :: l₂ →
      (∀ q, q ∈ l₁ → q ≠ "Other Metrics" →
        ∃ t, env.chartOutcome q = Except.ok t) →
      env.chartOutcome p = Except.error e → p ≠ "Other Metrics" →
      collect_stock_info_flow env = Except.error e) := by
  refine ⟨fun _ => rfl, fun _ => rfl, ?_, ?_⟩
  · intro h
    exact collectPanels_ok env charts h
  · intro l₁ p l₂ e hch hq hp hpo
    show collectPanels env charts = Except.error e
    rw [hch]
    exact collectPanels_error env l₁ p l₂ e hq hp hpo

/-- Witness for the amended C5: with every `get_chart` succeeding the run
completes all five panels, and with a timeout on "Balance Sheet" after a
successful "Financials" the run aborts with that timeout. -/
theorem collect_panel_error_propagation_witness :
    collect_stock_info_flow
      { clickInner := fun _ => Except.ok ()
        quartInner := fun _ => Except.ok ()
        chartOutcome := fun _ => Except.ok ⟨[], []⟩
        empRows := [] } = Except.ok charts ∧
    collect_stock_info_flow
      { clickInner := fun _ => Except.ok ()
        quartInner := fun _ => Except.ok ()
        chartOutcome := fun p =>
          if p = "Balance Sheet" then Except.error "TimeoutException"
          else Except.ok ⟨[], []⟩
        empRows := [] } = Except.error "TimeoutException" := by
  constructor
  · exact (collect_panel_error_propagation _).2.2.1
      (fun p _ _ => ⟨⟨[], []⟩, rfl⟩)
  · exact (collect_panel_error_propagation _).2.2.2
      ["Financials"] "Balance Sheet"
      ["Cash Flow Statement", "Key Financial Ratios", "Other Metrics"]
      "TimeoutException" rfl
      (fun q hq _ => by
        simp only [List.mem_singleton] at hq
        exact ⟨⟨[], []⟩, by rw [hq]; rfl⟩)
      rfl (by decide)

end StockWeb
